import Mathlib

/-
Shallow embedding of the Toggle components of the advanced-react-patterns
exercise repository.

Source files:
  * src/unnamed/part_000  -- "State Initializers" Toggle (initialOn prop,
                             initialState, toggle, reset, getTogglerProps,
                             callAll) followed by the "provider pattern" /
                             higher-order-component Toggle (raw
                             ToggleContext.Consumer, withToggle Wrapper).
  * src/unnamed/part_001  -- "Flexible Compound Components" Toggle
                             (throwing ToggleConsumer, Toggle.On,
                             Toggle.Off, Toggle.Button).
  * src/src/exercises/05.js -- "prop collections" Toggle.
  * src/src/exercises/11.js -- "The provider pattern" Toggle (throwing
                             ToggleConsumer exposed as Toggle.Consumer,
                             On, Off, Button).

Modelling conventions:
  * React component state is a record; `setState(updater, callback)` is
    modelled as applying the updater to the previous state and then
    letting the callback observe the updated state (React guarantees the
    callback runs after the update is applied).
  * Observer callbacks (`this.props.onToggle`, `this.props.onReset`) are
    not executed; instead each operation returns the list of
    notifications it fires, in order.
  * JS `undefined` / a missing context value is `Option.none`; a JS value
    that can sit in a props object is `Val`; JS function values relevant
    to the claims are the inductive `Handler` (the component's own
    `this.toggle`, opaque caller-supplied handlers, and the composite
    handler built by `callAll`).
  * JS objects built from literals and spreads are association lists of
    (key, value) pairs in evaluation order; a later binding overrides an
    earlier one, so `lookupVal` returns the LAST binding of a key.
-/

namespace AdvReact

/-- Function values that appear in props objects: the component's own
`this.toggle`, an opaque caller-supplied handler identified by a tag, and
the composite handler returned by `callAll(...fns)` (part_000 lines 6-7). -/
inductive Handler where
  | toggleH : Handler
  | userH : Nat → Handler
  | callAllH : List (Option Handler) → Handler

/-- JS values stored in props objects, as far as the claims need them. -/
inductive Val where
  | bool : Bool → Val
  | str : String → Val
  | fn : Handler → Val

/-- Component state of every Toggle variant: the boolean flag `on`.
(The variants that also store `toggle` in state store a constant function
value; the flag is the only mutable datum.) -/
structure ToggleState where
  «on» : Bool
deriving DecidableEq

/-- Observer notifications fired by the operations: `onToggle` with the
post-flip value, `onReset` with the restored value. -/
inductive Notification where
  | onToggle : Bool → Notification
  | onReset : Bool → Notification
deriving DecidableEq

/-- The `setState` updater of the flip operation, identical in every
variant: `({on}) => ({on: !on})` (part_000 lines 25-29 and 101-105,
part_001 lines 87-91, 05.js lines 8-12, 11.js lines 41-45).  It is a
function of the previous state only. -/
def toggleUpdater (s : ToggleState) : ToggleState :=
  { «on» := !s.«on» }

/-- The flip operation shared verbatim by every Toggle variant:
`this.setState(({on}) => ({on: !on}), () => this.props.onToggle(this.state.«on»))`.
Returns the updated state and the notifications fired (the callback reads
`this.state.«on»` after the update has been applied). -/
def toggle (s : ToggleState) : ToggleState × List Notification :=
  let s2 := toggleUpdater s
  (s2, [Notification.onToggle s2.«on»])

/-- Flipping the toggle n times (state part only). -/
def flipN : Nat → ToggleState → ToggleState
  | 0, s => s
  | n + 1, s => flipN n (toggle s).1

/-- Last-binding-wins lookup in a props object: JS object literals and
spreads let a later key override an earlier one. -/
def lookupVal (k : String) : List (String × Val) → Option Val
  | [] => none
  | (k2, v) :: rest =>
    match lookupVal k rest with
    | some v2 => some v2
    | none => if k2 = k then some v else none

/-- part_000 lines 6-7: `const callAll = (...fns) => (...args) =>
fns.forEach(fn => fn && fn(...args))`.  The invocations performed: each
non-falsy handler is called once, in order, with the same arguments.
Falsy entries (e.g. an absent onClick) are `none` and are skipped. -/
def callAll (fns : List (Option Handler)) (args : List Val) :
    List (Handler × List Val) :=
  (fns.filterMap id).map (fun f => (f, args))

namespace StateInit

/-- Props of the State Initializers Toggle (part_000 lines 12-14):
`static defaultProps = { initialOn: false }`. -/
structure Props where
  initialOn : Bool := false

/-- part_000 line 18: `initialState = {on: this.props.initialOn}`,
captured at construction time. -/
def initialState (p : Props) : ToggleState :=
  { «on» := p.initialOn }

/-- part_000 lines 39-45: `reset = () => this.setState(() => (this.initialState),
() => this.props.onReset(this.state.«on»))`.  The updater ignores the
previous state and restores `initialState`; the callback observes the
restored state. -/
def reset (p : Props) (_s : ToggleState) : ToggleState × List Notification :=
  let s2 := initialState p
  (s2, [Notification.onReset s2.«on»])

/-- part_000 lines 31-37: `getTogglerProps = ({onClick, ...props} = {}) =>
({'aria-pressed': this.state.«on», onClick: callAll(onClick, this.toggle),
...props})`.  The argument's `onClick` is destructured off, so `props`
(the rest) never carries an "onClick" key; the rest is spread last, after
the two defaults. -/
def getTogglerProps («on» : Bool) (onClick : Option Handler)
    (props : List (String × Val)) : List (String × Val) :=
  [("aria-pressed", Val.bool «on»),
   ("onClick", Val.fn (Handler.callAllH [onClick, some Handler.toggleH]))]
  ++ props

/-- The operations the State Initializers Toggle exposes on its state. -/
inductive Op where
  | doFlip
  | doReset

/-- One operation applied to the state (notifications dropped). -/
def step (p : Props) (op : Op) (s : ToggleState) : ToggleState :=
  match op with
  | Op.doFlip => (toggle s).1
  | Op.doReset => (reset p s).1

/-- Any finite sequence of flip/reset operations run from the freshly
constructed component. -/
def runOps (p : Props) (ops : List Op) : ToggleState :=
  ops.foldl (fun s op => step p op s) (initialState p)

end StateInit

/-- A context value as published by the providers: part_001 line 109
`value={{on: this.state.on, toggle: this.toggle}}` and 11.js line 60
`value={this.state}` with `state = {on: false, toggle: this.toggle}`.
Outside a provider the ambient value is the `createContext()` default,
i.e. `undefined`, modelled as `Option.none` at the consumption sites. -/
structure ContextValue where
  «on» : Bool
  toggle : Handler

namespace Compound

/-- part_001 lines 45-59: `ToggleConsumer` renders the raw context
consumer and throws `Toggle compound components cannot be rendered
outside the Toggle component` when the ambient value is falsy
(`undefined`, i.e. outside a provider); otherwise it calls
`props.children` with the context value. -/
def ToggleConsumer {α : Type} (ctx : Option ContextValue)
    (children : ContextValue → α) : Except String α :=
  match ctx with
  | none =>
    Except.error
      "Toggle compound components cannot be rendered outside the Toggle component"
  | some context => Except.ok (children context)

/-- part_001 lines 65-68: `static On = ({children}) => <ToggleConsumer>
{contextValue => (contextValue.on ? children : null)}</ToggleConsumer>`.
JS `null` (render nothing) is `Option.none` in the result. -/
def On {α : Type} (ctx : Option ContextValue) (children : α) :
    Except String (Option α) :=
  ToggleConsumer ctx
    (fun contextValue => if contextValue.«on» then some children else none)

/-- part_001 lines 69-72: `static Off = ({children}) => <ToggleConsumer>
{contextValue => (!contextValue.on ? children : null)}</ToggleConsumer>`. -/
def Off {α : Type} (ctx : Option ContextValue) (children : α) :
    Except String (Option α) :=
  ToggleConsumer ctx
    (fun contextValue => if !contextValue.«on» then some children else none)

/-- part_001 line 92: `state = {on: false, toggle: this.toggle}` -- the
initial flag is the constant false; the props passed to the component
play no role in the state initialization. -/
def initState (_props : List (String × Val)) : ToggleState :=
  { «on» := false }

end Compound

namespace Provider11

/-- From 11.js lines 8-22: the same throwing `ToggleConsumer`, exposed as
`Toggle.Consumer` (11.js line 27). -/
def ToggleConsumer {α : Type} (ctx : Option ContextValue)
    (children : ContextValue → α) : Except String α :=
  match ctx with
  | none =>
    Except.error
      "Toggle compound components cannot be rendered outside the Toggle component"
  | some context => Except.ok (children context)

/-- From 11.js lines 28-31: `static On = ({children}) => <Toggle.Consumer>
{contextValue => (contextValue.on ? children : null)}</Toggle.Consumer>`. -/
def On {α : Type} (ctx : Option ContextValue) (children : α) :
    Except String (Option α) :=
  ToggleConsumer ctx
    (fun contextValue => if contextValue.«on» then some children else none)

/-- From 11.js lines 32-35: `static Off = ({children}) => <Toggle.Consumer>
{contextValue => (!contextValue.on ? children : null)}</Toggle.Consumer>`. -/
def Off {α : Type} (ctx : Option ContextValue) (children : α) :
    Except String (Option α) :=
  ToggleConsumer ctx
    (fun contextValue => if !contextValue.«on» then some children else none)

/-- From 11.js lines 47-51: `initialState = {on: false, toggle: this.toggle};
state = this.initialState` -- fixed initial flag false, props ignored. -/
def initState (_props : List (String × Val)) : ToggleState :=
  { «on» := false }

end Provider11

namespace HOC

/-- part_000 lines 97-113 (the provider-pattern / higher-order-component
variant): `static Consumer = ToggleContext.Consumer` where
`ToggleContext = React.createContext()` has no default value and the raw
consumer performs no check, and `withToggle`'s `Wrapper` (part_000 lines
130-141) renders `<Toggle.Consumer>{context => <Component toggle={context}
...props/>}</Toggle.Consumer>`.  Outside a provider the ambient value is
`undefined` (`none`) and the wrapped component simply receives it; nothing
is thrown. -/
def Wrapper {α : Type} (ctx : Option ContextValue)
    (component : Option ContextValue → α) : Except String α :=
  Except.ok (component ctx)

/-- part_000 line 106: `state = {on: false, toggle: this.toggle}` --
fixed initial flag false, props ignored. -/
def initState (_props : List (String × Val)) : ToggleState :=
  { «on» := false }

end HOC

namespace PropColl

/-- From 05.js line 7: `state = {on: false}` -- fixed initial flag false,
props ignored. -/
def initState (_props : List (String × Val)) : ToggleState :=
  { «on» := false }

/-- From 05.js lines 13-27: the object the render passes to
`this.props.children`: `{on: this.state.on, toggle: this.toggle}`.  The
remaining lines of the object literal are comments only (the instructions
to add a `togglerProps` entry); no `togglerProps` key is present. -/
def childrenArg (s : ToggleState) : List (String × Val) :=
  [("on", Val.bool s.«on»), ("toggle", Val.fn Handler.toggleH)]

end PropColl

end AdvReact

namespace AdvReact

/-- C1: in every Toggle variant, the flip operation sets the flag to the
negation of its previous value -- its setState updater is a function of
the previous state only (`({on}) => ({on: !on})`), never of external
state -- and then fires exactly the onToggle notification carrying the
new value. -/
theorem C1_flip_negates_then_notifies (s : ToggleState) :
    (toggle s).1 = toggleUpdater s ∧
    (toggle s).1.«on» = !s.«on» ∧
    (toggle s).2 = [Notification.onToggle (!s.«on»)] := by
  refine ⟨rfl, rfl, rfl⟩

/-- C2: in the State Initializers Toggle, resetting after any number of
flips restores the flag to the initialOn prop captured at construction
time. -/
theorem C2_reset_restores_initial (p : StateInit.Props) (n : Nat) :
    (StateInit.reset p (flipN n (StateInit.initialState p))).1.«on»
      = p.initialOn := rfl

/-- Lookup in a spread of two props objects: a binding in the later
segment overrides any binding in the earlier one. -/
theorem lookupVal_append_of_some (k : String) (v : Val)
    (l1 l2 : List (String × Val)) (h : lookupVal k l2 = some v) :
    lookupVal k (l1 ++ l2) = some v := by
  induction l1 with
  | nil => simpa using h
  | cons hd tl ih =>
    obtain ⟨k2, v2⟩ := hd
    simp only [List.cons_append, lookupVal, List.append_eq, ih]

/-- Lookup in a spread of two props objects falls back to the earlier
segment when the later one has no binding for the key. -/
theorem lookupVal_append_of_none (k : String)
    (l1 l2 : List (String × Val)) (h : lookupVal k l2 = none) :
    lookupVal k (l1 ++ l2) = lookupVal k l1 := by
  induction l1 with
  | nil => simpa using h
  | cons hd tl ih =>
    obtain ⟨k2, v2⟩ := hd
    simp only [List.cons_append, lookupVal, List.append_eq, ih]

/-- C4: flipping the toggle n times yields the original flag when n is
even and the negated flag when n is odd, in every variant (all variants
share the same flip updater). -/
theorem C4_flip_parity (n : Nat) (s : ToggleState) :
    (flipN n s).«on» = if n % 2 = 0 then s.«on» else !s.«on» := by
  induction n generalizing s with
  | zero => simp [flipN]
  | succ n ih =>
    show (flipN n (toggle s).1).«on» = _
    rw [ih]
    rcases Nat.mod_two_eq_zero_or_one n with h | h
    · have h2 : (n + 1) % 2 = 1 := by omega
      rw [h, h2]
      simp [toggle, toggleUpdater]
    · have h2 : (n + 1) % 2 = 0 := by omega
      rw [h, h2]
      simp [toggle, toggleUpdater, h]

/-- C3 counterexample: in the provider-pattern / higher-order-component
variant of part_000, consuming the ambient toggle value outside a
provider does NOT throw: the raw `ToggleContext.Consumer` silently hands
the default context value (`undefined`, here `none`) to the wrapped
component and rendering succeeds. -/
theorem C3_counterexample :
    @HOC.Wrapper (Option ContextValue) none (fun c => c)
      = Except.ok none := rfl

/-- C3 amended: the compound-component and provider variants that define
their own `ToggleConsumer` (part_001, 11.js) deterministically throw when
the ambient value is absent, while the higher-order-component variant of
part_000 uses the raw consumer and silently passes the default
(`undefined`) to the wrapped component without throwing. -/
theorem C3_outside_scope_behaviour (α : Type) (f : ContextValue → α)
    (g : Option ContextValue → α) :
    Compound.ToggleConsumer none f
      = Except.error
        "Toggle compound components cannot be rendered outside the Toggle component"
    ∧ Provider11.ToggleConsumer none f
      = Except.error
        "Toggle compound components cannot be rendered outside the Toggle component"
    ∧ HOC.Wrapper none g = Except.ok (g none) :=
  ⟨rfl, rfl, rfl⟩

/-- C5: each flip fires exactly the onToggle notification with the
post-flip value, each reset fires exactly the onReset notification with
the restored value, and neither operation fires the other's
notification. -/
theorem C5_notification_discipline (p : StateInit.Props) (s : ToggleState) :
    (toggle s).2 = [Notification.onToggle ((toggle s).1.«on»)]
    ∧ (StateInit.reset p s).2
        = [Notification.onReset ((StateInit.reset p s).1.«on»)]
    ∧ (∀ v, Notification.onReset v ∉ (toggle s).2)
    ∧ (∀ v, Notification.onToggle v ∉ (StateInit.reset p s).2) := by
  refine ⟨rfl, rfl, ?_, ?_⟩ <;> intro v <;>
    simp [toggle, toggleUpdater, StateInit.reset]

/-- C6 counterexample: the prop-collections Toggle hardcodes its initial
state to `{on: false}`; passing an initialOn prop of true still yields an
initial flag of false, so the caller cannot choose the initial value in
that variant. -/
theorem C6_counterexample :
    (PropColl.initState [("initialOn", Val.bool true)]).«on» = false := rfl

/-- C6 amended: only the State Initializers Toggle exposes a configurable
initial flag (the initialOn prop, defaulting to false via defaultProps);
the prop-collections, flexible-compound, provider-pattern and
higher-order-component variants all fix the initial flag to false,
ignoring their props. -/
theorem C6_initial_value (p : StateInit.Props) (props : List (String × Val)) :
    (StateInit.initialState p).«on» = p.initialOn
    ∧ (StateInit.initialState {}).«on» = false
    ∧ (PropColl.initState props).«on» = false
    ∧ (Compound.initState props).«on» = false
    ∧ (Provider11.initState props).«on» = false
    ∧ (HOC.initState props).«on» = false :=
  ⟨rfl, rfl, rfl, rfl, rfl, rfl⟩

/-- C7 (code bug): the prop-collections Toggle (05.js) passes only the on
state and the toggle callback to its rendering function; despite the
file's own instructions and its Usage component (which destructures and
spreads togglerProps), no togglerProps entry is present in the object the
render passes to children, in either state. -/
theorem C7_no_togglerProps_passed :
    lookupVal "togglerProps" (PropColl.childrenArg { «on» := false }) = none
    ∧ lookupVal "togglerProps" (PropColl.childrenArg { «on» := true }) = none
    ∧ lookupVal "on" (PropColl.childrenArg { «on» := false })
        = some (Val.bool false)
    ∧ lookupVal "toggle" (PropColl.childrenArg { «on» := false })
        = some (Val.fn Handler.toggleH) :=
  ⟨rfl, rfl, rfl, rfl⟩

/-- C8: in every state reachable by any sequence of flip and reset
operations of the State Initializers Toggle, the flag is a boolean (its
type is Bool, so it is exhaustively true or false); the flip operation
always inverts the flag, and reset is not an inverting operation: there
is a reachable state (the initial one) on which reset leaves the flag
unchanged, so flip is the only operation whose transition negates the
previous flag. -/
theorem C8_flag_invariant (p : StateInit.Props) (ops : List StateInit.Op) :
    ((StateInit.runOps p ops).«on» = true
      ∨ (StateInit.runOps p ops).«on» = false)
    ∧ (∀ s, (StateInit.step p StateInit.Op.doFlip s).«on» = !s.«on»)
    ∧ (∃ s, (StateInit.step p StateInit.Op.doReset s).«on» = s.«on») :=
  ⟨Bool.eq_false_or_eq_true _ |>.symm.imp id id |>.symm,
   fun _ => rfl,
   ⟨StateInit.initialState p, rfl⟩⟩

/-- C9: in the compound-component variants, Toggle.On renders its
children exactly when the ambient flag is true and Toggle.Off exactly
when it is false, so for any one ambient value at most one of the two
renders its children. -/
theorem C9_on_off_render (α : Type) (c : ContextValue) (ch : α) :
    Compound.On (some c) ch = Except.ok (if c.«on» then some ch else none)
    ∧ Compound.Off (some c) ch = Except.ok (if c.«on» then none else some ch)
    ∧ Provider11.On (some c) ch = Except.ok (if c.«on» then some ch else none)
    ∧ Provider11.Off (some c) ch
        = Except.ok (if c.«on» then none else some ch)
    ∧ (Compound.On (some c) ch = Except.ok none
        ∨ Compound.Off (some c) ch = Except.ok none)
    ∧ (Provider11.On (some c) ch = Except.ok none
        ∨ Provider11.Off (some c) ch = Except.ok none) := by
  cases hc : c.«on» <;>
    simp [Compound.On, Compound.Off, Provider11.On, Provider11.Off,
      Compound.ToggleConsumer, Provider11.ToggleConsumer, hc]

/-- C10: getTogglerProps returns a props object whose aria-pressed entry
is the current flag (unless the caller overrides it), whose onClick is
the callAll composite that invokes the caller's onClick (when non-falsy)
and then the component's toggle, each with the same arguments, and in
which every other caller-supplied binding overrides the defaults (the
caller's rest object is spread last; its onClick was destructured off, so
it cannot carry an "onClick" binding). -/
theorem C10_getTogglerProps_contract («on» : Bool) (onClick : Option Handler)
    (props : List (String × Val))
    (hClick : lookupVal "onClick" props = none)
    (hAria : lookupVal "aria-pressed" props = none) :
    lookupVal "onClick" (StateInit.getTogglerProps «on» onClick props)
      = some (Val.fn (Handler.callAllH [onClick, some Handler.toggleH]))
    ∧ lookupVal "aria-pressed" (StateInit.getTogglerProps «on» onClick props)
        = some (Val.bool «on»)
    ∧ (∀ args, callAll [onClick, some Handler.toggleH] args
        = onClick.toList.map (fun f => (f, args)) ++ [(Handler.toggleH, args)])
    ∧ (∀ k v, lookupVal k props = some v →
        lookupVal k (StateInit.getTogglerProps «on» onClick props) = some v) := by
  refine ⟨?_, ?_, ?_, ?_⟩
  · rw [StateInit.getTogglerProps, lookupVal_append_of_none _ _ _ hClick]
    rfl
  · rw [StateInit.getTogglerProps, lookupVal_append_of_none _ _ _ hAria]
    rfl
  · intro args
    cases onClick <;> rfl
  · intro k v hkv
    rw [StateInit.getTogglerProps]
    exact lookupVal_append_of_some _ _ _ _ hkv

/-- C10 witness: the contract instantiated at a concrete call with a
caller-supplied onClick and an empty rest object. -/
theorem C10_witness :
    lookupVal "onClick" (StateInit.getTogglerProps true (some (Handler.userH 0)) [])
      = some (Val.fn
          (Handler.callAllH [some (Handler.userH 0), some Handler.toggleH]))
    ∧ lookupVal "aria-pressed"
        (StateInit.getTogglerProps true (some (Handler.userH 0)) [])
        = some (Val.bool true)
    ∧ (∀ args, callAll [some (Handler.userH 0), some Handler.toggleH] args
        = (some (Handler.userH 0)).toList.map (fun f => (f, args))
          ++ [(Handler.toggleH, args)])
    ∧ (∀ k v, lookupVal k ([] : List (String × Val)) = some v →
        lookupVal k (StateInit.getTogglerProps true (some (Handler.userH 0)) [])
          = some v) :=
  C10_getTogglerProps_contract true (some (Handler.userH 0)) [] rfl rfl

end AdvReact
